import Mathlib

/-
Verification of the supervisor web dashboard
(src/controllers/supervisor/web_dashboard.py).

The Python module is embedded shallowly:
- Python `bytes` values are `List Nat` (each element < 256 where produced);
- Python `str` values are `String`, except inside parsed JSON where they
  are `List Nat` of code points (Python strings may hold lone surrogates,
  which Lean `Char` cannot);
- Python floats are exact rationals (`Rat`); the dashboard performs no
  float arithmetic beyond `max`, so no rounding behaviour is lost;
- the module-level mutable state (`_STATE`, `_ws_clients`,
  `_last_broadcast_json`) is threaded explicitly; locks are dropped since
  every embedded operation corresponds to one Python critical section;
- sockets are byte lists: reads take a list in and return the unread
  remainder, writes are returned as (client id, bytes) pairs;
- standard-library calls (hashlib.sha1, base64, struct, json, str.encode,
  bytes.decode, os.path.basename) are modelled from their documented
  behaviour; each model's doc comment names the function it models.
-/

set_option maxRecDepth 100000

namespace Dashboard

/-! ## Byte and string helpers -/

/-- The UTF-8 encoding of one Unicode code point (models the per-character
step of Python `str.encode()`). -/
def utf8EncodeChar (c : Nat) : List Nat :=
  if c < 0x80 then [c]
  else if c < 0x800 then [0xC0 ||| (c >>> 6), 0x80 ||| (c &&& 0x3F)]
  else if c < 0x10000 then
    [0xE0 ||| (c >>> 12), 0x80 ||| ((c >>> 6) &&& 0x3F), 0x80 ||| (c &&& 0x3F)]
  else
    [0xF0 ||| (c >>> 18), 0x80 ||| ((c >>> 12) &&& 0x3F),
     0x80 ||| ((c >>> 6) &&& 0x3F), 0x80 ||| (c &&& 0x3F)]

/-- Bytes of a string under UTF-8 (models Python `s.encode("utf-8")`). -/
def strBytes (s : String) : List Nat :=
  (s.data.map Char.toNat).flatMap utf8EncodeChar

/-- Code points of a string (a Python `str` as a sequence of code points). -/
def cps (s : String) : List Nat := s.data.map Char.toNat

/-! ## SHA-1 (models `hashlib.sha1(...).digest()`) -/

/-- Truncation to an unsigned 32-bit value. -/
def u32 (x : Nat) : Nat := x % 4294967296

/-- Left rotation of a 32-bit word. -/
def rotl (n x : Nat) : Nat := u32 ((x <<< n) ||| (x >>> (32 - n)))

/-- Big-endian 4-byte encoding of a 32-bit word. -/
def be32 (w : Nat) : List Nat :=
  [(w >>> 24) &&& 0xFF, (w >>> 16) &&& 0xFF, (w >>> 8) &&& 0xFF, w &&& 0xFF]

/-- Big-endian 8-byte encoding of a 64-bit value. -/
def be64 (w : Nat) : List Nat :=
  [(w >>> 56) &&& 0xFF, (w >>> 48) &&& 0xFF, (w >>> 40) &&& 0xFF,
   (w >>> 32) &&& 0xFF, (w >>> 24) &&& 0xFF, (w >>> 16) &&& 0xFF,
   (w >>> 8) &&& 0xFF, w &&& 0xFF]

/-- SHA-1 message padding: append 0x80, zero bytes until the length is
56 mod 64, then the original bit length as a big-endian 64-bit value. -/
def sha1Pad (msg : List Nat) : List Nat :=
  msg ++ [0x80] ++ List.replicate ((119 - msg.length % 64) % 64) 0
      ++ be64 (msg.length * 8)

/-- Splitting a byte list into 64-byte blocks. The first argument is fuel;
`l.length` always suffices because every step consumes 64 bytes of a
nonempty list. -/
def chunk64 : Nat → List Nat → List (List Nat)
  | 0, _ => []
  | _, [] => []
  | fuel + 1, l => l.take 64 :: chunk64 fuel (l.drop 64)

/-- Big-endian 32-bit words assembled from bytes. -/
def wordsOfBytes : List Nat → List Nat
  | b0 :: b1 :: b2 :: b3 :: rest =>
      ((b0 <<< 24) ||| (b1 <<< 16) ||| (b2 <<< 8) ||| b3) :: wordsOfBytes rest
  | _ => []

/-- Extension of the 16 message words to 80 (appends `count` words). -/
def sha1Extend : Nat → List Nat → List Nat
  | 0, ws => ws
  | count + 1, ws =>
      let n := ws.length
      let w := rotl 1 (((ws.getD (n - 3) 0) ^^^ (ws.getD (n - 8) 0))
                       ^^^ ((ws.getD (n - 14) 0) ^^^ (ws.getD (n - 16) 0)))
      sha1Extend count (ws ++ [w])

/-- One SHA-1 round; the state carries (round index, a, b, c, d, e). -/
def sha1Round (st : Nat × Nat × Nat × Nat × Nat × Nat) (w : Nat) :
    Nat × Nat × Nat × Nat × Nat × Nat :=
  let (i, a, b, c, d, e) := st
  let f :=
    if i < 20 then (b &&& c) ||| ((u32 (4294967295 - b)) &&& d)
    else if i < 40 then (b ^^^ c) ^^^ d
    else if i < 60 then ((b &&& c) ||| (b &&& d)) ||| (c &&& d)
    else (b ^^^ c) ^^^ d
  let k :=
    if i < 20 then 0x5A827999
    else if i < 40 then 0x6ED9EBA1
    else if i < 60 then 0x8F1BBCDC
    else 0xCA62C1D6
  let temp := u32 (rotl 5 a + f + e + k + w)
  (i + 1, temp, a, rotl 30 b, c, d)

/-- SHA-1 compression of one 64-byte block into the running hash state. -/
def sha1Compress (h : Nat × Nat × Nat × Nat × Nat) (block : List Nat) :
    Nat × Nat × Nat × Nat × Nat :=
  let ws := sha1Extend 64 (wordsOfBytes block)
  let (h0, h1, h2, h3, h4) := h
  let (_, a, b, c, d, e) := ws.foldl sha1Round (0, h0, h1, h2, h3, h4)
  (u32 (h0 + a), u32 (h1 + b), u32 (h2 + c), u32 (h3 + d), u32 (h4 + e))

/-- The SHA-1 digest (20 bytes) of a byte message; models
`hashlib.sha1(raw).digest()`. -/
def sha1 (msg : List Nat) : List Nat :=
  let padded := sha1Pad msg
  let (h0, h1, h2, h3, h4) :=
    (chunk64 padded.length padded).foldl sha1Compress
      (0x67452301, 0xEFCDAB89, 0x98BADCFE, 0x10325476, 0xC3D2E1F0)
  be32 h0 ++ be32 h1 ++ be32 h2 ++ be32 h3 ++ be32 h4

/-! ## Base64 (models `base64.b64encode` / `base64.b64decode`) -/

/-- The standard base64 alphabet. -/
def b64Alphabet : List Char :=
  "ABCDEFGHIJKLMNOPQRSTUVWXYZabcdefghijklmnopqrstuvwxyz0123456789+/".data

/-- One base64 output character for a 6-bit value. -/
def b64Char (n : Nat) : Char := b64Alphabet.getD n 'A'

/-- Base64 encoding of bytes; models
`base64.b64encode(...).decode()` including trailing padding. -/
def base64Encode : List Nat → List Char
  | b0 :: b1 :: b2 :: rest =>
      b64Char (b0 >>> 2) :: b64Char (((b0 &&& 0x3) <<< 4) ||| (b1 >>> 4)) ::
      b64Char (((b1 &&& 0xF) <<< 2) ||| (b2 >>> 6)) :: b64Char (b2 &&& 0x3F) ::
      base64Encode rest
  | [b0, b1] =>
      [b64Char (b0 >>> 2), b64Char (((b0 &&& 0x3) <<< 4) ||| (b1 >>> 4)),
       b64Char ((b1 &&& 0xF) <<< 2), '=']
  | [b0] =>
      [b64Char (b0 >>> 2), b64Char ((b0 &&& 0x3) <<< 4), '=', '=']
  | [] => []

/-- The 6-bit value of a base64 alphabet character, `none` outside the
alphabet. -/
def b64Val (c : Char) : Option Nat :=
  if 'A' ≤ c ∧ c ≤ 'Z' then some (c.toNat - 65)
  else if 'a' ≤ c ∧ c ≤ 'z' then some (c.toNat - 71)
  else if '0' ≤ c ∧ c ≤ '9' then some (c.toNat + 4)
  else if c = '+' then some 62
  else if c = '/' then some 63
  else none

/-- Decoding of base64 quads. A quad ending in `=` or `==` yields the final
2 or 1 bytes and ends the data (any remaining characters are ignored, as in
CPython's lenient mode); a `=` in the first two positions of a quad is an
error; 1–3 leftover characters are an error ("Incorrect padding"). -/
def b64DecodeQuads : List Char → Option (List Nat)
  | [] => some []
  | a :: b :: c :: d :: rest =>
      match b64Val a, b64Val b with
      | some va, some vb =>
        if c = '=' then
          if d = '=' then some [(va <<< 2) ||| (vb >>> 4)] else none
        else
          match b64Val c with
          | some vc =>
            if d = '=' then
              some [(va <<< 2) ||| (vb >>> 4), ((vb &&& 0xF) <<< 4) ||| (vc >>> 2)]
            else
              match b64Val d with
              | some vd =>
                (b64DecodeQuads rest).map
                  (fun t => ((va <<< 2) ||| (vb >>> 4)) ::
                            (((vb &&& 0xF) <<< 4) ||| (vc >>> 2)) ::
                            (((vc &&& 0x3) <<< 6) ||| vd) :: t)
              | none => none
          | none => none
      | _, _ => none
  | _ => none

/-- Models Python `base64.b64decode(s)` with the default `validate=False`:
characters outside the base64 alphabet and `=` are discarded first, then
the quads are decoded; a failure (odd leftover length, misplaced padding)
is `binascii.Error`, modelled as `none`. Known deviation, touched by no
claim here: CPython also discards a `=` occurring in the first two
positions of a quad instead of failing. -/
def b64decode (s : String) : Option (List Nat) :=
  b64DecodeQuads (s.data.filter (fun c => (b64Val c).isSome || c = '='))

/-! ## WebSocket handshake (`_ws_accept_key`) -/

/-- The RFC 6455 magic GUID appended to the client key before hashing. -/
def _WS_MAGIC : String := "258EAFA5-E914-47DA-95CA-C5AB0DC85B11"

/-- Computes Sec-WebSocket-Accept from Sec-WebSocket-Key:
`base64.b64encode(hashlib.sha1((key + _WS_MAGIC).encode()).digest()).decode()`. -/
def _ws_accept_key (key : String) : String :=
  String.mk (base64Encode (sha1 (strBytes (key ++ _WS_MAGIC))))

/-! ## Shared state (`_SharedState` and its accessors) -/

/-- One score log entry; the supervisor appends dicts
`\x7b"source": str, "points": int\x7d`. -/
structure ScoreEntry where
  source : String
  points : Int
deriving DecidableEq, Repr

/-- The `_SharedState` container (scoreboard data and team info). The lock
is dropped: the embedding is sequential and each Python method body holds
the lock for its whole duration. -/
structure SharedState where
  team_name : String
  points : Int
  percent : Rat
  last_upload_filename : Option String
  new_code_available : Bool
  run_requested : Bool
  relocate_requested : Bool
  remaining_seconds : Rat
  game_over : Bool
  room_pcts : List (Nat × Rat)
  current_room : Int
  score_log : List ScoreEntry
  battery : Option Rat
  end_requested : Bool
  subleague : String
deriving DecidableEq, Repr

/-- The initial `_STATE` built by `_SharedState.__init__`. -/
def initSharedState : SharedState :=
  { team_name := "", points := 0, percent := 0, last_upload_filename := none,
    new_code_available := false, run_requested := false,
    relocate_requested := false, remaining_seconds := 0, game_over := false,
    room_pcts := [], current_room := -1, score_log := [], battery := none,
    end_requested := false, subleague := "" }

/-- `update_score`: update current score and run status (called from the
supervisor loop). `score_log = none` models the `None` default. -/
def update_score (points : Int) (percent : Rat) (remaining_seconds : Rat)
    (game_over : Bool) (score_log : Option (List ScoreEntry))
    (st : SharedState) : SharedState :=
  { st with
    points := points
    percent := percent
    remaining_seconds := max 0 remaining_seconds
    game_over := game_over
    score_log := score_log.getD [] }

/-- `consume_new_code_flag`: return the flag once and clear it. -/
def consume_new_code_flag (st : SharedState) : Bool × SharedState :=
  (st.new_code_available, { st with new_code_available := false })

/-- `consume_run_request`: return the flag once and clear it. -/
def consume_run_request (st : SharedState) : Bool × SharedState :=
  (st.run_requested, { st with run_requested := false })

/-- `consume_end_request`: return the flag once and clear it. -/
def consume_end_request (st : SharedState) : Bool × SharedState :=
  (st.end_requested, { st with end_requested := false })

/-- `consume_relocate_request`: return the flag once and clear it. -/
def consume_relocate_request (st : SharedState) : Bool × SharedState :=
  (st.relocate_requested, { st with relocate_requested := false })

/-- The dict returned by `get_state_snapshot`, with its derived field
`hasCode`. -/
structure Snapshot where
  teamName : String
  points : Int
  percent : Rat
  lastUploadFilename : Option String
  hasCode : Bool
  remainingSeconds : Rat
  gameOver : Bool
  roomPcts : List (Nat × Rat)
  currentRoom : Int
  scoreLog : List ScoreEntry
  battery : Option Rat
  subleague : String
deriving DecidableEq, Repr

/-- `get_state_snapshot`: a copy of the current state as a plain dict. -/
def get_state_snapshot (st : SharedState) : Snapshot :=
  { teamName := st.team_name, points := st.points, percent := st.percent,
    lastUploadFilename := st.last_upload_filename,
    hasCode := st.last_upload_filename.isSome,
    remainingSeconds := st.remaining_seconds, gameOver := st.game_over,
    roomPcts := st.room_pcts, currentRoom := st.current_room,
    scoreLog := st.score_log, battery := st.battery,
    subleague := st.subleague }

/-! ## JSON serialization of the snapshot (models `json.dumps`)

Only determinism of the rendering matters to any claim (the broadcaster
compares serializations for equality); the numeric rendering is therefore
modelled as an injective textual rendering of the exact rational value
rather than CPython's float `repr`. -/

/-- A lowercase hex digit. -/
def hexDigit (n : Nat) : Char := "0123456789abcdef".data.getD n '0'

/-- JSON escaping of one code point as in `json.dumps` with the default
`ensure_ascii=True`: the short escapes, printable ASCII verbatim,
everything else as a `\u` escape. -/
def jsonEscapeChar (c : Nat) : List Char :=
  if c = 34 then ['\\', '"']
  else if c = 92 then ['\\', '\\']
  else if c = 10 then ['\\', 'n']
  else if c = 13 then ['\\', 'r']
  else if c = 9 then ['\\', 't']
  else if c = 8 then ['\\', 'b']
  else if c = 12 then ['\\', 'f']
  else if 32 ≤ c ∧ c ≤ 126 then [Char.ofNat c]
  else ['\\', 'u', hexDigit ((c >>> 12) &&& 15), hexDigit ((c >>> 8) &&& 15),
        hexDigit ((c >>> 4) &&& 15), hexDigit (c &&& 15)]

/-- A JSON string literal for a Python string. -/
def jsonString (s : String) : String :=
  "\"" ++ String.mk ((s.data.map Char.toNat).flatMap jsonEscapeChar) ++ "\""

/-- Deterministic rendering of a float value (see the section comment). -/
def jsonRat (q : Rat) : String := toString q.num ++ "d" ++ toString q.den

/-- A JSON boolean. -/
def jsonBool (b : Bool) : String := if b then "true" else "false"

/-- An optional string, `null` when absent. -/
def jsonOptStr : Option String → String
  | none => "null"
  | some s => jsonString s

/-- An optional float, `null` when absent. -/
def jsonOptRat : Option Rat → String
  | none => "null"
  | some q => jsonRat q

/-- Comma-space joined items (the default `json.dumps` item separator). -/
def joinComma : List String → String
  | [] => ""
  | [x] => x
  | x :: xs => x ++ ", " ++ joinComma xs

/-- Insertion of a room entry in ascending order of its original int key:
`json.dumps(..., sort_keys=True)` sorts the dict items (`sorted(d.items())`)
before the keys are stringified, so int keys compare numerically. -/
def insertByKey (p : Nat × Rat) : List (Nat × Rat) → List (Nat × Rat)
  | [] => [p]
  | q :: rest =>
      if p.1 ≤ q.1 then p :: q :: rest
      else q :: insertByKey p rest

/-- Room entries sorted numerically by their int key. -/
def sortByKey (l : List (Nat × Rat)) : List (Nat × Rat) :=
  l.foldr insertByKey []

/-- The `roomPcts` dict: int keys become JSON string keys. -/
def jsonRoomPcts (sorted : Bool) (ps : List (Nat × Rat)) : String :=
  let items := (if sorted then sortByKey ps else ps).map
    (fun p => jsonString (toString p.1) ++ ": " ++ jsonRat p.2)
  "\x7b" ++ joinComma items ++ "\x7d"

/-- One score log entry object; `sort_keys` puts `points` before
`source`, the dict literal order is `source` then `points`. -/
def jsonScoreEntry (sorted : Bool) (e : ScoreEntry) : String :=
  if sorted then
    "\x7b\"points\": " ++ toString e.points ++ ", \"source\": "
      ++ jsonString e.source ++ "\x7d"
  else
    "\x7b\"source\": " ++ jsonString e.source ++ ", \"points\": "
      ++ toString e.points ++ "\x7d"

/-- The `scoreLog` array. -/
def jsonScoreLog (sorted : Bool) (l : List ScoreEntry) : String :=
  "[" ++ joinComma (l.map (jsonScoreEntry sorted)) ++ "]"

/-- Models `json.dumps(payload)` on the snapshot dict, keys in the dict
literal order of `get_state_snapshot`. -/
def dumps (s : Snapshot) : String :=
  "\x7b\"teamName\": " ++ jsonString s.teamName
  ++ ", \"points\": " ++ toString s.points
  ++ ", \"percent\": " ++ jsonRat s.percent
  ++ ", \"lastUploadFilename\": " ++ jsonOptStr s.lastUploadFilename
  ++ ", \"hasCode\": " ++ jsonBool s.hasCode
  ++ ", \"remainingSeconds\": " ++ jsonRat s.remainingSeconds
  ++ ", \"gameOver\": " ++ jsonBool s.gameOver
  ++ ", \"roomPcts\": " ++ jsonRoomPcts false s.roomPcts
  ++ ", \"currentRoom\": " ++ toString s.currentRoom
  ++ ", \"scoreLog\": " ++ jsonScoreLog false s.scoreLog
  ++ ", \"battery\": " ++ jsonOptRat s.battery
  ++ ", \"subleague\": " ++ jsonString s.subleague
  ++ "\x7d"

/-- Models `json.dumps(payload, sort_keys=True)` on the snapshot dict:
keys of every object in ascending string order. -/
def dumps_sorted (s : Snapshot) : String :=
  "\x7b\"battery\": " ++ jsonOptRat s.battery
  ++ ", \"currentRoom\": " ++ toString s.currentRoom
  ++ ", \"gameOver\": " ++ jsonBool s.gameOver
  ++ ", \"hasCode\": " ++ jsonBool s.hasCode
  ++ ", \"lastUploadFilename\": " ++ jsonOptStr s.lastUploadFilename
  ++ ", \"percent\": " ++ jsonRat s.percent
  ++ ", \"points\": " ++ toString s.points
  ++ ", \"remainingSeconds\": " ++ jsonRat s.remainingSeconds
  ++ ", \"roomPcts\": " ++ jsonRoomPcts true s.roomPcts
  ++ ", \"scoreLog\": " ++ jsonScoreLog true s.scoreLog
  ++ ", \"subleague\": " ++ jsonString s.subleague
  ++ ", \"teamName\": " ++ jsonString s.teamName
  ++ "\x7d"

/-! ## Module state and the broadcaster -/

/-- A registered WebSocket client. `send_ok` models whether writes to its
socket succeed (`_ws_send_text` raises `OSError` otherwise). -/
structure WsClient where
  id : Nat
  send_ok : Bool
deriving DecidableEq, Repr

/-- The module-level mutable state threaded through the server:
`_STATE`, `_ws_clients` and `_last_broadcast_json`. -/
structure DashboardState where
  state : SharedState
  ws_clients : List WsClient
  last_broadcast_json : Option String
deriving DecidableEq, Repr

/-- The module state at import time: fresh `_STATE`, no clients, no cached
comparison string. -/
def initDashboardState : DashboardState :=
  { state := initSharedState, ws_clients := [], last_broadcast_json := none }

/-- `_broadcast_state`: send the current state to all WebSocket clients
only when it has changed. Returns the new module state, the list of
(client id, bytes) deliveries, and the ids of the dead sockets that were
discarded and closed after a failed send. -/
def _broadcast_state (ds : DashboardState) :
    DashboardState × List (Nat × List Nat) × List Nat :=
  let payload := get_state_snapshot ds.state
  let new_json := dumps_sorted payload
  if some new_json = ds.last_broadcast_json then (ds, [], [])
  else
    let data := strBytes (dumps payload)
    ({ ds with
        last_broadcast_json := some new_json,
        ws_clients := ds.ws_clients.filter (fun c => c.send_ok) },
     (ds.ws_clients.filter (fun c => c.send_ok)).map (fun c => (c.id, data)),
     (ds.ws_clients.filter (fun c => !c.send_ok)).map (fun c => c.id))

/-! ## WebSocket framing (`_ws_send_text`, `_ws_recv_frame`) -/

/-- Models `struct.pack(">H", n)`: big-endian 16-bit (callers guarantee
`n < 65536`). -/
def pack16 (n : Nat) : List Nat := [n / 256 % 256, n % 256]

/-- Models `struct.pack(">Q", n)`: big-endian 64-bit. -/
def pack64 (n : Nat) : List Nat :=
  [n / 256 ^ 7 % 256, n / 256 ^ 6 % 256, n / 256 ^ 5 % 256, n / 256 ^ 4 % 256,
   n / 256 ^ 3 % 256, n / 256 ^ 2 % 256, n / 256 % 256, n % 256]

/-- Models `struct.unpack(">H", ...)` and `struct.unpack(">Q", ...)`: the
big-endian value of a byte list. -/
def beVal (l : List Nat) : Nat := l.foldl (fun acc b => acc * 256 + b) 0

/-- `_ws_send_text`: one server-to-client text frame, FIN plus opcode
(`0x81`), never masked; the length field paths follow the payload length. -/
def _ws_send_text (payload : List Nat) : List Nat :=
  let length := payload.length
  if length < 126 then 0x81 :: length :: payload
  else if length < 65536 then 0x81 :: 126 :: (pack16 length ++ payload)
  else 0x81 :: 127 :: (pack64 length ++ payload)

/-- XOR unmasking: `payload[i] ^ mask[i % 4]`. -/
def unmask (mask : List Nat) (payload : List Nat) : List Nat :=
  (List.range payload.length).map
    (fun i => (payload.getD i 0) ^^^ (mask.getD (i % 4) 0))

/-- `_ws_recv_frame` with the socket made explicit: the inbound stream is a
byte list, and the unread remainder is returned alongside the frame. All
`sock.recv` error paths (short read of the header, the extended length, the
mask, or an empty chunk while the payload is incomplete) and a declared
length above 1 MiB return `none`, the close/error signal. -/
def ws_recv_frame_rest (input : List Nat) :
    Option ((Nat × List Nat) × List Nat) :=
  match input with
  | b0 :: b1 :: rest =>
      let opcode := b0 &&& 0x0F
      let masked := (b1 &&& 0x80) != 0
      let baseLen := b1 &&& 0x7F
      let extSize := if baseLen = 126 then 2 else if baseLen = 127 then 8 else 0
      if (rest.take extSize).length < extSize then none
      else
        let length := if extSize = 0 then baseLen else beVal (rest.take extSize)
        let rest2 := rest.drop extSize
        if masked && decide ((rest2.take 4).length < 4) then none
        else
          let maskKey := if masked then rest2.take 4 else []
          let rest3 := if masked then rest2.drop 4 else rest2
          if length > 1024 * 1024 then none
          else if rest3.length < length then none
          else
            let payload := rest3.take length
            let payload := if masked then unmask maskKey payload else payload
            some ((opcode, payload), rest3.drop length)
  | _ => none

/-- `_ws_recv_frame` as in the source: one frame, `(opcode, payload)` or
`none` on close/error. -/
def _ws_recv_frame (input : List Nat) : Option (Nat × List Nat) :=
  (ws_recv_frame_rest input).map Prod.fst

/-! ## Upload handling (`_apply_upload`) -/

/-- Models `os.path.basename` on POSIX: the part after the last `/`. -/
def os_path_basename (s : String) : String :=
  String.mk ((s.data.reverse.takeWhile (fun c => c ≠ '/')).reverse)

/-- `_apply_upload`: decode the base64 content, reject payloads above
2 MiB, write the bytes to `robot/robot.py`, update the state. The write to
the external sink is modelled as succeeding; its `OSError` branch returns
`none` with the state untouched exactly like the two failure branches
modelled here. Returns the saved filename on success, `none` on failure. -/
def _apply_upload (content_b64 : String) (filename : String)
    (st : SharedState) : Option String × SharedState :=
  match b64decode content_b64 with
  | none => (none, st)
  | some file_bytes =>
    if file_bytes.length > 2 * 1024 * 1024 then (none, st)
    else
      let saved_name :=
        if filename ≠ "" then os_path_basename filename else "robot.py"
      (some saved_name,
       { st with last_upload_filename := some saved_name,
                 new_code_available := true })

/-! ## UTF-8 decoding (models `bytes.decode("utf-8")`) -/

/-- Strict UTF-8 decoding to code points, modelling `bytes.decode("utf-8")`:
invalid start or continuation bytes, truncated sequences, overlong forms,
surrogates and values above U+10FFFF raise `UnicodeDecodeError`, modelled
as `none`. -/
def utf8Decode : List Nat → Option (List Nat)
  | [] => some []
  | b :: rest =>
    if b < 0x80 then (utf8Decode rest).map (fun t => b :: t)
    else if b < 0xC2 then none
    else if b < 0xE0 then
      match rest with
      | b1 :: rest1 =>
        if 0x80 ≤ b1 ∧ b1 < 0xC0 then
          (utf8Decode rest1).map
            (fun t => (((b &&& 0x1F) <<< 6) ||| (b1 &&& 0x3F)) :: t)
        else none
      | _ => none
    else if b < 0xF0 then
      match rest with
      | b1 :: b2 :: rest2 =>
        if (0x80 ≤ b1 ∧ b1 < 0xC0) ∧ (0x80 ≤ b2 ∧ b2 < 0xC0)
            ∧ (b = 0xE0 → 0xA0 ≤ b1) ∧ (b = 0xED → b1 < 0xA0) then
          (utf8Decode rest2).map
            (fun t => (((b &&& 0x0F) <<< 12) ||| ((b1 &&& 0x3F) <<< 6)
                       ||| (b2 &&& 0x3F)) :: t)
        else none
      | _ => none
    else if b < 0xF5 then
      match rest with
      | b1 :: b2 :: b3 :: rest3 =>
        if (0x80 ≤ b1 ∧ b1 < 0xC0) ∧ (0x80 ≤ b2 ∧ b2 < 0xC0)
            ∧ (0x80 ≤ b3 ∧ b3 < 0xC0)
            ∧ (b = 0xF0 → 0x90 ≤ b1) ∧ (b = 0xF4 → b1 < 0x90) then
          (utf8Decode rest3).map
            (fun t => (((b &&& 0x07) <<< 18) ||| ((b1 &&& 0x3F) <<< 12)
                       ||| ((b2 &&& 0x3F) <<< 6) ||| (b3 &&& 0x3F)) :: t)
        else none
      | _ => none
    else none

/-! ## JSON parsing (models `json.loads`)

The dispatch in `_handle_websocket` only ever compares parsed values
against string constants and tests `isinstance(content, str)`, so numeric
values are kept as their lexemes. Parsed strings are code-point lists
because `\uXXXX` escapes may produce lone surrogates, legal in a Python
`str`. The fuel argument bounds recursion depth; it only ever decreases
after at least one input code point was consumed, so `2n + 2` fuel
suffices for `n` code points. -/

inductive PyJson where
  | null
  | bool (b : Bool)
  | num (raw : List Nat)
  | str (s : List Nat)
  | arr (xs : List PyJson)
  | obj (kvs : List (List Nat × PyJson))

/-- JSON whitespace skipping (space, tab, newline, carriage return). -/
def skipWs : List Nat → List Nat
  | c :: rest =>
      if c = 32 ∨ c = 9 ∨ c = 10 ∨ c = 13 then skipWs rest else c :: rest
  | [] => []

/-- An ASCII digit code point. -/
def isDigitCp (c : Nat) : Bool := 48 ≤ c && c ≤ 57

/-- The longest digit run at the head of the input. -/
def takeDigits : List Nat → List Nat × List Nat
  | c :: rest =>
      if isDigitCp c then
        let (ds, r) := takeDigits rest
        (c :: ds, r)
      else ([], c :: rest)
  | [] => ([], [])

/-- The optional fraction part `.digits+`; when the dot is not followed by
a digit the regex group fails to match and nothing is consumed. -/
def parseFracOpt (l : List Nat) : List Nat × List Nat :=
  match l with
  | 46 :: rest =>
      match takeDigits rest with
      | ([], _) => ([], l)
      | (ds, r) => (46 :: ds, r)
  | _ => ([], l)

/-- The optional exponent part `[eE][+-]?digits+`. -/
def parseExpOpt (l : List Nat) : List Nat × List Nat :=
  match l with
  | c :: rest =>
      if c = 101 ∨ c = 69 then
        let (sgn, r1) :=
          match rest with
          | s :: r => if s = 43 ∨ s = 45 then ([s], r) else (([] : List Nat), rest)
          | [] => ([], [])
        match takeDigits r1 with
        | ([], _) => ([], l)
        | (ds, r2) => (c :: (sgn ++ ds), r2)
      else ([], l)
  | [] => ([], l)

/-- A JSON number lexeme, per the `json` module's NUMBER_RE:
`(-?(?:0|[1-9]\d*))(\.\d+)?([eE][-+]?\d+)?`. Returns the lexeme and the
rest, `none` when the regex does not match at the head. -/
def parseNumber (input : List Nat) : Option (List Nat × List Nat) :=
  let (sgn, r1) :=
    match input with
    | 45 :: r => (([45] : List Nat), r)
    | _ => ([], input)
  match r1 with
  | 48 :: r2 =>
      let (frac, r3) := parseFracOpt r2
      let (ex, r4) := parseExpOpt r3
      some (sgn ++ [48] ++ frac ++ ex, r4)
  | c :: r2 =>
      if isDigitCp c ∧ c ≠ 48 then
        let (ds, r3) := takeDigits r2
        let (frac, r4) := parseFracOpt r3
        let (ex, r5) := parseExpOpt r4
        some (sgn ++ (c :: ds) ++ frac ++ ex, r5)
      else none
  | [] => none

/-- The value of one hex digit code point. -/
def hexValCp (c : Nat) : Option Nat :=
  if 48 ≤ c ∧ c ≤ 57 then some (c - 48)
  else if 97 ≤ c ∧ c ≤ 102 then some (c - 87)
  else if 65 ≤ c ∧ c ≤ 70 then some (c - 55)
  else none

/-- The value of a `\uXXXX` escape's four hex digits. -/
def hex4 (a b c d : Nat) : Option Nat :=
  match hexValCp a, hexValCp b, hexValCp c, hexValCp d with
  | some va, some vb, some vc, some vd =>
      some ((va <<< 12) ||| (vb <<< 8) ||| (vc <<< 4) ||| vd)
  | _, _, _, _ => none

/-- A JSON string body after the opening quote, as `py_scanstring`: the
short escapes, `\uXXXX` escapes with surrogate-pair combination (a lone
surrogate is kept as is), and a hard error on control characters, bad
escapes or a missing closing quote. Returns the code points and the rest. -/
def parseJsonString : Nat → List Nat → Option (List Nat × List Nat)
  | 0, _ => none
  | fuel + 1, input =>
    match input with
    | 34 :: rest => some ([], rest)
    | 92 :: e :: rest =>
        if e = 34 ∨ e = 92 ∨ e = 47 then
          (parseJsonString fuel rest).map (fun pr => (e :: pr.1, pr.2))
        else if e = 98 then
          (parseJsonString fuel rest).map (fun pr => (8 :: pr.1, pr.2))
        else if e = 102 then
          (parseJsonString fuel rest).map (fun pr => (12 :: pr.1, pr.2))
        else if e = 110 then
          (parseJsonString fuel rest).map (fun pr => (10 :: pr.1, pr.2))
        else if e = 114 then
          (parseJsonString fuel rest).map (fun pr => (13 :: pr.1, pr.2))
        else if e = 116 then
          (parseJsonString fuel rest).map (fun pr => (9 :: pr.1, pr.2))
        else if e = 117 then
          match rest with
          | h1 :: h2 :: h3 :: h4 :: rest2 =>
            match hex4 h1 h2 h3 h4 with
            | none => none
            | some v =>
              if 0xD800 ≤ v ∧ v ≤ 0xDBFF then
                match rest2 with
                | 92 :: 117 :: g1 :: g2 :: g3 :: g4 :: rest3 =>
                  match hex4 g1 g2 g3 g4 with
                  | some w =>
                    if 0xDC00 ≤ w ∧ w ≤ 0xDFFF then
                      (parseJsonString fuel rest3).map
                        (fun pr =>
                          ((0x10000 + ((v - 0xD800) <<< 10) + (w - 0xDC00))
                            :: pr.1, pr.2))
                    else
                      (parseJsonString fuel rest2).map
                        (fun pr => (v :: pr.1, pr.2))
                  | none =>
                      (parseJsonString fuel rest2).map
                        (fun pr => (v :: pr.1, pr.2))
                | _ =>
                    (parseJsonString fuel rest2).map
                      (fun pr => (v :: pr.1, pr.2))
              else
                (parseJsonString fuel rest2).map (fun pr => (v :: pr.1, pr.2))
          | _ => none
        else none
    | c :: rest =>
        if c < 0x20 then none
        else (parseJsonString fuel rest).map (fun pr => (c :: pr.1, pr.2))
    | [] => none

mutual

/-- One JSON value at the head of the input (no leading whitespace), as the
`json` scanner: strings, objects, arrays, the three constants, numbers and
the CPython extensions `NaN`, `Infinity`, `-Infinity`. -/
def parseValue : Nat → List Nat → Option (PyJson × List Nat)
  | 0, _ => none
  | fuel + 1, input =>
    match input with
    | 34 :: rest =>
        (parseJsonString (fuel + 1) rest).map
          (fun pr => (PyJson.str pr.1, pr.2))
    | 0x7B :: rest => parseObjectItems fuel (skipWs rest)
    | 91 :: rest => parseArrayItems fuel (skipWs rest)
    | 110 :: 117 :: 108 :: 108 :: rest => some (PyJson.null, rest)
    | 116 :: 114 :: 117 :: 101 :: rest => some (PyJson.bool true, rest)
    | 102 :: 97 :: 108 :: 115 :: 101 :: rest => some (PyJson.bool false, rest)
    | 78 :: 97 :: 78 :: rest => some (PyJson.num (cps "NaN"), rest)
    | 73 :: 110 :: 102 :: 105 :: 110 :: 105 :: 116 :: 121 :: rest =>
        some (PyJson.num (cps "Infinity"), rest)
    | 45 :: 73 :: 110 :: 102 :: 105 :: 110 :: 105 :: 116 :: 121 :: rest =>
        some (PyJson.num (cps "-Infinity"), rest)
    | _ =>
        (parseNumber input).map (fun pr => (PyJson.num pr.1, pr.2))

/-- Array items after `[` and whitespace: only an immediate `]` makes the
empty array; anything else must be a first value, handled by
`parseArrayRest`. -/
def parseArrayItems : Nat → List Nat → Option (PyJson × List Nat)
  | 0, _ => none
  | fuel + 1, input =>
    match input with
    | 93 :: rest => some (PyJson.arr [], rest)
    | _ => parseArrayRest fuel input
  termination_by structural fuel => fuel

/-- One or more array items: a value, then either `]` or a `,` after which
a further value is required — a `]` directly after a `,` is a
`JSONDecodeError` ("Expecting value"), as in CPython's `JSONArray`, so a
trailing comma is rejected. -/
def parseArrayRest : Nat → List Nat → Option (PyJson × List Nat)
  | 0, _ => none
  | fuel + 1, input =>
    match parseValue fuel input with
    | none => none
    | some (v, r1) =>
      match skipWs r1 with
      | 93 :: rest => some (PyJson.arr [v], rest)
      | 44 :: r2 =>
        match parseArrayRest fuel (skipWs r2) with
        | some (PyJson.arr vs, rest) => some (PyJson.arr (v :: vs), rest)
        | _ => none
      | _ => none
  termination_by structural fuel => fuel

/-- Object items after the opening brace and whitespace: the closing brace
ends, otherwise `"key" : value` pairs separated by commas. A duplicated
key keeps its last value, as in the Python dict the scanner builds. -/
def parseObjectItems : Nat → List Nat → Option (PyJson × List Nat)
  | 0, _ => none
  | fuel + 1, input =>
    match input with
    | 0x7D :: rest => some (PyJson.obj [], rest)
    | 34 :: r0 =>
      match parseJsonString fuel r0 with
      | none => none
      | some (key, r1) =>
        match skipWs r1 with
        | 58 :: r2 =>
          match parseValue fuel (skipWs r2) with
          | none => none
          | some (v, r3) =>
            match skipWs r3 with
            | 0x7D :: rest => some (PyJson.obj [(key, v)], rest)
            | 44 :: r4 =>
              match skipWs r4 with
              | 34 :: _ =>
                match parseObjectItems fuel (skipWs r4) with
                | some (PyJson.obj kvs, rest) =>
                    some (PyJson.obj ((key, v) :: kvs), rest)
                | _ => none
              | _ => none
            | _ => none
        | _ => none
    | _ => none
  termination_by structural fuel => fuel

end

/-- Models `json.loads` on a decoded string given as code points: leading
and trailing JSON whitespace is allowed and the whole input must be
consumed ("Extra data" otherwise). -/
def json_loads (s : List Nat) : Option PyJson :=
  match parseValue (2 * s.length + 2) (skipWs s) with
  | some (v, rest) => if skipWs rest = [] then some v else none
  | none => none

/-- Python `dict.get(key)` on the association list a parsed JSON object
carries: the last binding of a duplicated key wins. -/
def objGet (kvs : List (List Nat × PyJson)) (key : List Nat) : Option PyJson :=
  (kvs.reverse.find? (fun kv => kv.1 == key)).map (fun kv => kv.2)

/-- A code point sequence back to a Lean string, for the `str` fields
handed on to `_apply_upload`. Code points that are not Unicode scalar
values fall back through `Char.ofNat`; no claim depends on those. -/
def stringOfCps (l : List Nat) : String := String.mk (l.map Char.ofNat)

/-! ## Command dispatch and the session loop (`_handle_websocket`) -/

/-- Whether the dispatch body of one message ran to completion (`ok`, which
includes the silently caught `JSONDecodeError` / `UnicodeDecodeError` /
`TypeError`) or raised an uncaught exception (`crash`: the
`AttributeError` from `msg.get(...)` when the message is not a dict). -/
inductive StepKind where
  | ok
  | crash
deriving DecidableEq, Repr

/-- Python `==` between a parsed JSON value and a string literal: true
exactly when the value is that string. -/
def actionIs (action : Option PyJson) (s : String) : Bool :=
  match action with
  | some (PyJson.str t) => t == cps s
  | _ => false

/-- The command dispatch of `_handle_websocket` on one parsed message
(source lines 401-416): `run` / `relocate` / `end` set their flag, `upload`
applies the upload and then broadcasts immediately; any other action is a
no-op. A non-dict message crashes (`msg.get` raises `AttributeError`,
which the `except` tuple does not catch). Known deviation, touched by no
claim: a truthy non-string `filename` is modelled as the default name,
where the real code raises `TypeError` from `os.path.basename` after the
file write and skips the state update. -/
def handle_command (msg : PyJson) (ds : DashboardState) :
    DashboardState × List (Nat × List Nat) × List Nat × StepKind :=
  match msg with
  | PyJson.obj kvs =>
    let action := objGet kvs (cps "action")
    if actionIs action "run" then
      ({ ds with state.run_requested := true }, [], [], StepKind.ok)
    else if actionIs action "relocate" then
      ({ ds with state.relocate_requested := true }, [], [], StepKind.ok)
    else if actionIs action "end" then
      ({ ds with state.end_requested := true }, [], [], StepKind.ok)
    else if actionIs action "upload" then
      match objGet kvs (cps "content") with
      | some (PyJson.str c) =>
        if c = [] then (ds, [], [], StepKind.ok)
        else
          let filename :=
            match objGet kvs (cps "filename") with
            | some (PyJson.str f) =>
                if f = [] then "robot.py" else stringOfCps f
            | _ => "robot.py"
          let (_, st2) := _apply_upload (stringOfCps c) filename ds.state
          let (ds3, sends, closed) := _broadcast_state { ds with state := st2 }
          (ds3, sends, closed, StepKind.ok)
      | _ => (ds, [], [], StepKind.ok)
    else (ds, [], [], StepKind.ok)
  | _ => (ds, [], [], StepKind.crash)

/-- Lines 398-418 for one text frame: decode the payload as UTF-8, parse
it as JSON, dispatch. A `UnicodeDecodeError` or `JSONDecodeError` is
caught and swallowed (`ok`, nothing mutated, nothing sent). -/
def ws_dispatch_text (payload : List Nat) (ds : DashboardState) :
    DashboardState × List (Nat × List Nat) × List Nat × StepKind :=
  match utf8Decode payload with
  | none => (ds, [], [], StepKind.ok)
  | some cpts =>
    match json_loads cpts with
    | none => (ds, [], [], StepKind.ok)
    | some msg => handle_command msg ds

/-- The `finally` clause of `_handle_websocket`: deregister `conn` from
`_ws_clients` and close its socket. -/
def ws_session_exit (conn : Nat) (ds : DashboardState) :
    DashboardState × List (Nat × List Nat) × List Nat :=
  ({ ds with ws_clients := ds.ws_clients.filter (fun c => c.id != conn) },
   [], [conn])

/-- The receive loop of `_handle_websocket` (lines 391-418) together with
its `finally` clause: decode one frame; close/error or a close opcode ends
the loop; a nonempty text frame is dispatched; everything else is skipped.
A crash in the dispatch leaves the loop, runs the `finally` clause and is
then swallowed by `_DashboardHandler.handle`, so its observable effect
equals the normal exit. The fuel bounds the iteration count;
`input.length + 1` always suffices because every decoded frame consumes at
least the two header bytes. -/
def ws_session_loop (conn : Nat) :
    Nat → DashboardState → List Nat →
    DashboardState × List (Nat × List Nat) × List Nat
  | 0, ds, _ => ws_session_exit conn ds
  | fuel + 1, ds, input =>
    match ws_recv_frame_rest input with
    | none => ws_session_exit conn ds
    | some ((opcode, payload), rest) =>
      if opcode = 8 then ws_session_exit conn ds
      else if opcode = 1 ∧ payload ≠ [] then
        match ws_dispatch_text payload ds with
        | (ds2, sends, closed, StepKind.ok) =>
          let (ds3, sends2, closed2) := ws_session_loop conn fuel ds2 rest
          (ds3, sends ++ sends2, closed ++ closed2)
        | (ds2, sends, closed, StepKind.crash) =>
          let (ds3, sends2, closed2) := ws_session_exit conn ds2
          (ds3, sends ++ sends2, closed ++ closed2)
      else ws_session_loop conn fuel ds rest

/-- `_handle_websocket`: register `conn`, send one immediate snapshot
(`initial_send_ok` tells whether that send raises `OSError`, which is
swallowed), then run the receive loop; the `finally` clause deregisters
and closes `conn`. -/
def _handle_websocket (conn : Nat) (send_ok : Bool) (initial_send_ok : Bool)
    (ds : DashboardState) (input : List Nat) :
    DashboardState × List (Nat × List Nat) × List Nat :=
  let ds1 := { ds with ws_clients := ds.ws_clients ++ [⟨conn, send_ok⟩] }
  let initial :=
    if initial_send_ok then
      [(conn, _ws_send_text (strBytes (dumps (get_state_snapshot ds.state))))]
    else []
  let (ds2, sends, closed) := ws_session_loop conn (input.length + 1) ds1 input
  (ds2, initial ++ sends, closed)

/-! ## HTTP responder and connection dispatch -/

/-- The status line table of `_http_response` (any unknown status maps to
500). -/
def http_status_line (status : Nat) : String :=
  if status = 200 then "200 OK"
  else if status = 303 then "303 See Other"
  else if status = 400 then "400 Bad Request"
  else if status = 404 then "404 Not Found"
  else "500 Internal Server Error"

/-- The header block built by `_http_response`. -/
def http_headers_string (status : Nat) (content_type : String)
    (content_length : Nat) : String :=
  "HTTP/1.1 " ++ http_status_line status ++ "\r\n"
  ++ "Content-Type: " ++ content_type ++ "\r\n"
  ++ "Content-Length: " ++ toString content_length ++ "\r\n"
  ++ "Connection: close" ++ "\r\n"
  ++ "\r\n"

/-- `_http_response`: the bytes written to the socket, headers then body. -/
def _http_response (status : Nat) (body : List Nat)
    (content_type : String) : List Nat :=
  strBytes (http_headers_string status content_type body.length) ++ body

/-- `_handle_http_get` with the result of `_HTML_PATH.read_bytes()` passed
in explicitly (`none` models its `OSError`). -/
def _handle_http_get (html_read : Option (List Nat)) (path : String) :
    List Nat :=
  if ¬(path = "/" ∨ path = "/index.html") then
    _http_response 404 (strBytes "Not found") "text/plain"
  else
    match html_read with
    | none => _http_response 500 (strBytes "Internal Server Error") "text/plain"
    | some body => _http_response 200 body "text/html; charset=utf-8"

/-- Python `dict.get` on the parsed header dict (later duplicates of a key
overwrite earlier ones, as in `_read_headers`). -/
def headerGet (headers : List (String × String)) (key : String) :
    Option String :=
  (headers.reverse.find? (fun kv => kv.1 == key)).map (fun kv => kv.2)

/-- The WebSocket-upgrade test at the top of `_handle_connection`. Header
names are already lowercased by `_read_headers`. -/
def is_ws_upgrade (method path : String)
    (headers : List (String × String)) : Bool :=
  method == "GET" && path == "/ws"
    && ((headerGet headers "upgrade").getD "").toLower == "websocket"
    && (headerGet headers "sec-websocket-key").isSome

/-- The outcome of `_handle_connection` on one parsed request: either an
HTTP response (with whether the socket was closed afterwards) or the
promotion to a WebSocket session with the given accept key. -/
inductive ConnOutcome where
  | http (response : List Nat) (closed : Bool)
  | websocket (accept : String)
deriving DecidableEq, Repr

/-- `_handle_connection` after `_read_headers` succeeded: the upgrade path
performs the handshake and hands over to `_handle_websocket`; a plain GET
goes to `_handle_http_get` and the socket is closed; everything else gets
404 and the socket is closed. -/
def _handle_connection (html_read : Option (List Nat))
    (method path : String) (headers : List (String × String)) : ConnOutcome :=
  if is_ws_upgrade method path headers then
    ConnOutcome.websocket
      (_ws_accept_key ((headerGet headers "sec-websocket-key").getD ""))
  else if method == "GET" then
    ConnOutcome.http (_handle_http_get html_read path) true
  else
    ConnOutcome.http (_http_response 404 (strBytes "Not found") "text/plain") true

end Dashboard


namespace Dashboard

/-! ## Claim-level helper definitions -/

/-- The parsed inbound message of a `run` command. -/
def runMsg : PyJson := PyJson.obj [(cps "action", PyJson.str (cps "run"))]

/-- The parsed inbound message of a `relocate` command. -/
def relocateMsg : PyJson :=
  PyJson.obj [(cps "action", PyJson.str (cps "relocate"))]

/-- The parsed inbound message of an `end` command. -/
def endMsg : PyJson := PyJson.obj [(cps "action", PyJson.str (cps "end"))]

/-- The module state after one inbound command message was dispatched. -/
def applyCmd (msg : PyJson) (ds : DashboardState) : DashboardState :=
  (handle_command msg ds).1

/-- The module state after one inbound upload with the given content and
filename was applied (the state component of `_apply_upload`). -/
def applyUpload (content filename : String) (ds : DashboardState) :
    DashboardState :=
  { ds with state := (_apply_upload content filename ds.state).2 }

end Dashboard

namespace Dashboard

/-! ## Generic helper lemmas -/

theorem land_127_of_lt : ∀ n < 128, n &&& 127 = n := by decide

theorem land_128_of_lt : ∀ n < 128, n &&& 128 = 0 := by decide

/-! ## C3: WebSocket handshake accept value -/

/-- C3: for every Sec-WebSocket-Key string the handshake's accept value is
`base64(SHA1(key ++ "258EAFA5-E914-47DA-95CA-C5AB0DC85B11"))`, and the
RFC 6455 worked example key yields the documented accept value. -/
theorem ws_accept_key_correct :
    (∀ key : String,
      _ws_accept_key key
        = String.mk (base64Encode (sha1 (strBytes (key ++ _WS_MAGIC))))) ∧
    _ws_accept_key "dGhlIHNhbXBsZSBub25jZQ==" = "s3pPLMBiTxaQ9kYGzzhZRbK+xOo=" :=
  ⟨fun _ => rfl, by decide⟩

/-! ## C10: frame condition of `update_score` -/

/-- C10: `update_score` writes only `points`, `percent`,
`remaining_seconds`, `game_over` and `score_log`; the team name, upload
filename, battery, room stats, current room, subleague and all four
command flags are left unchanged. -/
theorem update_score_frame (points : Int) (percent : Rat)
    (remaining_seconds : Rat) (game_over : Bool)
    (score_log : Option (List ScoreEntry)) (st : SharedState) :
    (update_score points percent remaining_seconds game_over score_log
        st).team_name = st.team_name ∧
    (update_score points percent remaining_seconds game_over score_log
        st).last_upload_filename = st.last_upload_filename ∧
    (update_score points percent remaining_seconds game_over score_log
        st).battery = st.battery ∧
    (update_score points percent remaining_seconds game_over score_log
        st).room_pcts = st.room_pcts ∧
    (update_score points percent remaining_seconds game_over score_log
        st).current_room = st.current_room ∧
    (update_score points percent remaining_seconds game_over score_log
        st).subleague = st.subleague ∧
    (update_score points percent remaining_seconds game_over score_log
        st).new_code_available = st.new_code_available ∧
    (update_score points percent remaining_seconds game_over score_log
        st).run_requested = st.run_requested ∧
    (update_score points percent remaining_seconds game_over score_log
        st).relocate_requested = st.relocate_requested ∧
    (update_score points percent remaining_seconds game_over score_log
        st).end_requested = st.end_requested :=
  ⟨rfl, rfl, rfl, rfl, rfl, rfl, rfl, rfl, rfl, rfl⟩

/-! ## C7: snapshot numeric invariants under `update_score` -/

/-- C7 (amended): `update_score` clamps `remaining_seconds` at zero for
every input, but stores `percent` exactly as passed (no clamping), so the
stored percent lies within [0, 100] exactly when the caller's input does. -/
theorem update_score_invariants (points : Int) (percent : Rat)
    (remaining_seconds : Rat) (game_over : Bool)
    (score_log : Option (List ScoreEntry)) (st : SharedState) :
    0 ≤ (update_score points percent remaining_seconds game_over score_log
        st).remaining_seconds ∧
    (update_score points percent remaining_seconds game_over score_log
        st).percent = percent ∧
    (0 ≤ percent ∧ percent ≤ 100 →
      0 ≤ (update_score points percent remaining_seconds game_over score_log
          st).percent ∧
      (update_score points percent remaining_seconds game_over score_log
          st).percent ≤ 100) :=
  ⟨le_max_left 0 remaining_seconds, rfl, fun h => h⟩

/-- C7 witness: the amended statement at a concrete call (negative
remaining seconds are clamped to zero, an in-range percent stays in
range). -/
theorem update_score_invariants_witness :
    0 ≤ (update_score 0 50 (-3) false none initSharedState).remaining_seconds ∧
    (0 ≤ (50 : Rat) ∧ (50 : Rat) ≤ 100) ∧
    0 ≤ (update_score 0 50 (-3) false none initSharedState).percent ∧
    (update_score 0 50 (-3) false none initSharedState).percent ≤ 100 := by
  have h := update_score_invariants 0 50 (-3) false none initSharedState
  have hin : 0 ≤ (50 : Rat) ∧ (50 : Rat) ≤ 100 := by norm_num
  exact ⟨h.1, hin, (h.2.2 hin).1, (h.2.2 hin).2⟩

/-- C7 counterexample: the claim "every call to `update_score`, for every
input, leaves the stored percent within [0, 100]" is false: with input
percent 150 the stored percent is 150. -/
theorem update_score_percent_counterexample :
    ¬ ((update_score 0 150 0 false none initSharedState).percent ≤ 100) := by
  norm_num [update_score, initSharedState]

/-! ## C6: upload validation -/

/-- C6: an upload whose base64 content decodes to at most 2 MiB is
accepted (the write being modelled as succeeding) and sets
`last_upload_filename` and `new_code_available`; a failed decode or a
decoded size above 2 MiB is a silent no-op that leaves the state
untouched. -/
theorem upload_validation (content filename : String) (st : SharedState) :
    (∀ bytes, b64decode content = some bytes →
      bytes.length ≤ 2 * 1024 * 1024 →
      _apply_upload content filename st =
        (some (if filename ≠ "" then os_path_basename filename
               else "robot.py"),
         { st with
             last_upload_filename :=
               some (if filename ≠ "" then os_path_basename filename
                     else "robot.py"),
             new_code_available := true })) ∧
    (b64decode content = none → _apply_upload content filename st = (none, st)) ∧
    (∀ bytes, b64decode content = some bytes →
      2 * 1024 * 1024 < bytes.length →
      _apply_upload content filename st = (none, st)) := by
  refine ⟨fun bytes hdec hlen => ?_, fun hdec => ?_, fun bytes hdec hlen => ?_⟩
  · simp only [_apply_upload, hdec]
    rw [if_neg (by omega)]
  · simp only [_apply_upload, hdec]
  · simp only [_apply_upload, hdec]
    rw [if_pos (by omega)]

/-- C6 witness: a small upload is accepted and mutates exactly the two
fields; a content with broken padding fails to decode and is a no-op. -/
theorem upload_validation_witness :
    b64decode "aGk=" = some [104, 105] ∧
    ([104, 105] : List Nat).length ≤ 2 * 1024 * 1024 ∧
    _apply_upload "aGk=" "dir/robot2.py" initSharedState =
      (some "robot2.py",
       { initSharedState with
           last_upload_filename := some "robot2.py",
           new_code_available := true }) ∧
    b64decode "aGk" = none ∧
    _apply_upload "aGk" "x.py" initSharedState = (none, initSharedState) := by
  have h1 := (upload_validation "aGk=" "dir/robot2.py" initSharedState).1
    [104, 105] (by decide) (by decide)
  have h2 := (upload_validation "aGk" "x.py" initSharedState).2.1 (by decide)
  refine ⟨by decide, by decide, ?_, by decide, h2⟩
  rw [h1]
  decide

/-! ## C1: edge-triggered command flags -/

/-- C1: for each command flag, `n ≥ 1` inbound commands of the
corresponding kind with no intervening consume make the first call of the
corresponding consume operation return `true` and clear the flag, and a
second call with no further commands returns `false`; several commands
coalesce into exactly one observed `true`. The `newCodeAvailable` flag's
inbound command is an upload whose content decodes within the size
bound. -/
theorem command_flags_edge_triggered (ds : DashboardState) (n : Nat)
    (hn : 1 ≤ n) :
    (consume_run_request ((applyCmd runMsg)^[n] ds).state
        = (true, { ((applyCmd runMsg)^[n] ds).state with
                     run_requested := false }) ∧
      (consume_run_request
        (consume_run_request ((applyCmd runMsg)^[n] ds).state).2).1 = false) ∧
    (consume_relocate_request ((applyCmd relocateMsg)^[n] ds).state
        = (true, { ((applyCmd relocateMsg)^[n] ds).state with
                     relocate_requested := false }) ∧
      (consume_relocate_request
        (consume_relocate_request
          ((applyCmd relocateMsg)^[n] ds).state).2).1 = false) ∧
    (consume_end_request ((applyCmd endMsg)^[n] ds).state
        = (true, { ((applyCmd endMsg)^[n] ds).state with
                     end_requested := false }) ∧
      (consume_end_request
        (consume_end_request ((applyCmd endMsg)^[n] ds).state).2).1 = false) ∧
    (∀ content filename bytes, b64decode content = some bytes →
      bytes.length ≤ 2 * 1024 * 1024 →
      consume_new_code_flag ((applyUpload content filename)^[n] ds).state
          = (true, { ((applyUpload content filename)^[n] ds).state with
                       new_code_available := false }) ∧
      (consume_new_code_flag
        (consume_new_code_flag
          ((applyUpload content filename)^[n] ds).state).2).1 = false) := by
  cases n with
  | zero => exact absurd hn (by decide)
  | succ m =>
    have hrun : ((applyCmd runMsg)^[m + 1] ds).state.run_requested = true := by
      rw [Function.iterate_succ_apply']
      rfl
    have hrel : ((applyCmd relocateMsg)^[m + 1]
        ds).state.relocate_requested = true := by
      rw [Function.iterate_succ_apply']
      rfl
    have hend : ((applyCmd endMsg)^[m + 1] ds).state.end_requested = true := by
      rw [Function.iterate_succ_apply']
      rfl
    refine ⟨⟨?_, rfl⟩, ⟨?_, rfl⟩, ⟨?_, rfl⟩,
      fun content filename bytes hdec hlen => ⟨?_, rfl⟩⟩
    · simp only [consume_run_request, hrun]
    · simp only [consume_relocate_request, hrel]
    · simp only [consume_end_request, hend]
    · have hnew : ((applyUpload content filename)^[m + 1]
          ds).state.new_code_available = true := by
        rw [Function.iterate_succ_apply']
        simp only [applyUpload, _apply_upload, hdec]
        rw [if_neg (by omega)]
      simp only [consume_new_code_flag, hnew]

/-- C1 witness: two run commands and two uploads before any consume still
yield exactly one observed `true` each. -/
theorem command_flags_edge_triggered_witness :
    (1 : Nat) ≤ 2 ∧
    b64decode "aGk=" = some [104, 105] ∧
    ([104, 105] : List Nat).length ≤ 2 * 1024 * 1024 ∧
    (consume_run_request
      ((applyCmd runMsg)^[2] initDashboardState).state).1 = true ∧
    (consume_run_request
      (consume_run_request
        ((applyCmd runMsg)^[2] initDashboardState).state).2).1 = false ∧
    (consume_new_code_flag
      ((applyUpload "aGk=" "robot.py")^[2] initDashboardState).state).1
        = true ∧
    (consume_new_code_flag
      (consume_new_code_flag
        ((applyUpload "aGk=" "robot.py")^[2]
          initDashboardState).state).2).1 = false := by
  have h := command_flags_edge_triggered initDashboardState 2 (by decide)
  have h4 := h.2.2.2 "aGk=" "robot.py" [104, 105] (by decide) (by decide)
  exact ⟨by decide, by decide, by decide,
    by rw [h.1.1], h.1.2, by rw [h4.1], h4.2⟩

/-! ## C2: change-suppressed broadcast -/

/-- C2: a second `_broadcast_state` invocation with no state change after a
first one sends nothing, closes nothing and leaves the module state
unchanged; and whenever the stable-key serialization differs from the
cached comparison string, the invocation updates the cache, re-serializes
and sends the new snapshot exactly once to every live connection, removing
from the live set and closing every connection whose send fails. -/
theorem broadcast_change_suppression (ds : DashboardState) :
    _broadcast_state (_broadcast_state ds).1 = ((_broadcast_state ds).1, [], []) ∧
    (ds.last_broadcast_json ≠ some (dumps_sorted (get_state_snapshot ds.state)) →
      _broadcast_state ds =
        ({ state := ds.state,
           ws_clients := ds.ws_clients.filter (fun c => c.send_ok),
           last_broadcast_json :=
             some (dumps_sorted (get_state_snapshot ds.state)) },
         (ds.ws_clients.filter (fun c => c.send_ok)).map
           (fun c => (c.id, strBytes (dumps (get_state_snapshot ds.state)))),
         (ds.ws_clients.filter (fun c => !c.send_ok)).map (fun c => c.id))) := by
  constructor
  · by_cases h :
        some (dumps_sorted (get_state_snapshot ds.state)) = ds.last_broadcast_json
    · have h1 : _broadcast_state ds = (ds, [], []) := by
        simp only [_broadcast_state]
        rw [if_pos h]
      rw [h1]
      simp only [_broadcast_state]
      rw [if_pos h]
    · have h1 : (_broadcast_state ds).1 =
          { state := ds.state,
            ws_clients := ds.ws_clients.filter (fun c => c.send_ok),
            last_broadcast_json :=
              some (dumps_sorted (get_state_snapshot ds.state)) } := by
        simp only [_broadcast_state]
        rw [if_neg h]
      rw [h1]
      simp only [_broadcast_state]
      simp
  · intro h
    simp only [_broadcast_state]
    rw [if_neg (fun hh => h hh.symm)]

/-- C2 witness: a fresh cache with one live and one dead client; the
broadcast delivers once to the live client, drops and closes the dead
one, and caches the comparison string. -/
theorem broadcast_change_suppression_witness :
    (({ state := initSharedState,
        ws_clients := [⟨1, true⟩, ⟨2, false⟩],
        last_broadcast_json := none } : DashboardState).last_broadcast_json
      ≠ some (dumps_sorted (get_state_snapshot initSharedState))) ∧
    _broadcast_state
        { state := initSharedState,
          ws_clients := [⟨1, true⟩, ⟨2, false⟩],
          last_broadcast_json := none } =
      ({ state := initSharedState,
         ws_clients := [⟨1, true⟩],
         last_broadcast_json :=
           some (dumps_sorted (get_state_snapshot initSharedState)) },
       [(1, strBytes (dumps (get_state_snapshot initSharedState)))],
       [2]) := by
  have h := (broadcast_change_suppression
    { state := initSharedState,
      ws_clients := [⟨1, true⟩, ⟨2, false⟩],
      last_broadcast_json := none }).2 (by simp)
  exact ⟨by simp, by rw [h]; rfl⟩

/-! ## C4: frame encode/decode round trip -/

/-- Decoding a small unmasked text frame (1-byte length field). -/
theorem recv_frame_small (len : Nat) (payload : List Nat)
    (h1 : payload.length = len) (h2 : len < 126) :
    ws_recv_frame_rest (0x81 :: len :: payload) = some ((1, payload), []) := by
  have hl : len &&& 127 = len := land_127_of_lt len (by omega)
  have hm : len &&& 128 = 0 := land_128_of_lt len (by omega)
  have h126 : ¬(len = 126) := by omega
  have h127 : ¬(len = 127) := by omega
  have hbig : ¬(len > 1024 * 1024) := by omega
  have hlt : ¬(payload.length < len) := by omega
  have htake : payload.take len = payload := by
    rw [← h1]
    exact List.take_length payload
  have hdrop : payload.drop len = [] := by
    rw [← h1]
    exact List.drop_length payload
  have e3 : (129 : Nat) &&& 15 = 1 := by decide
  simp [ws_recv_frame_rest, hl, hm, h126, h127, hbig, hlt, htake, hdrop, e3]

/-- Decoding an unmasked text frame with the 16-bit extended length. -/
theorem recv_frame_ext16 (payload : List Nat)
    (h2 : 126 ≤ payload.length) (h3 : payload.length < 65536) :
    ws_recv_frame_rest (0x81 :: 126 :: (pack16 payload.length ++ payload))
      = some ((1, payload), []) := by
  have hbv : beVal [payload.length / 256 % 256, payload.length % 256]
      = payload.length := by
    simp [beVal]
    omega
  have hbig : ¬(payload.length > 1024 * 1024) := by omega
  have e1 : (126 : Nat) &&& 127 = 126 := by decide
  have e2 : (126 : Nat) &&& 128 = 0 := by decide
  have e3 : (129 : Nat) &&& 15 = 1 := by decide
  simp [ws_recv_frame_rest, pack16, hbv, hbig, List.take_length,
        List.drop_length, e1, e2, e3]

/-- Decoding an unmasked text frame with the 64-bit extended length. -/
theorem recv_frame_ext64 (payload : List Nat)
    (h2 : 65536 ≤ payload.length) (h3 : payload.length ≤ 1024 * 1024) :
    ws_recv_frame_rest (0x81 :: 127 :: (pack64 payload.length ++ payload))
      = some ((1, payload), []) := by
  have hbv : beVal
      [payload.length / 72057594037927936 % 256,
       payload.length / 281474976710656 % 256,
       payload.length / 1099511627776 % 256,
       payload.length / 4294967296 % 256,
       payload.length / 16777216 % 256,
       payload.length / 65536 % 256,
       payload.length / 256 % 256, payload.length % 256]
      = payload.length := by
    simp [beVal]
    omega
  have hbig : ¬(payload.length > 1024 * 1024) := by omega
  have e1 : (127 : Nat) &&& 127 = 127 := by decide
  have e2 : (127 : Nat) &&& 128 = 0 := by decide
  have e3 : (129 : Nat) &&& 15 = 1 := by decide
  simp [ws_recv_frame_rest, pack64, hbv, hbig, List.take_length,
        List.drop_length, e1, e2, e3]

/-- C4: every payload of length at most 1 MiB round-trips through
`_ws_send_text` and `_ws_recv_frame` to opcode 1 and the identical
payload, and the encoder picks the length-field path the length demands:
below 126 the 1-byte field, 126 to 65535 the big-endian 16-bit extended
field behind marker 126, and 65536 upward the big-endian 64-bit extended
field behind marker 127. -/
theorem ws_frame_roundtrip (payload : List Nat)
    (h : payload.length ≤ 1024 * 1024) :
    _ws_recv_frame (_ws_send_text payload) = some (1, payload) ∧
    (payload.length < 126 →
      _ws_send_text payload = 0x81 :: payload.length :: payload) ∧
    (126 ≤ payload.length → payload.length < 65536 →
      _ws_send_text payload
        = 0x81 :: 126 :: (pack16 payload.length ++ payload)) ∧
    (65536 ≤ payload.length →
      _ws_send_text payload
        = 0x81 :: 127 :: (pack64 payload.length ++ payload)) := by
  refine ⟨?_, fun hs => ?_, fun hm1 hm2 => ?_, fun hb => ?_⟩
  · by_cases hs : payload.length < 126
    · have he : _ws_send_text payload = 0x81 :: payload.length :: payload := by
        simp [_ws_send_text, hs]
      rw [he, _ws_recv_frame, recv_frame_small payload.length payload rfl hs]
      rfl
    · by_cases hm : payload.length < 65536
      · have he : _ws_send_text payload
            = 0x81 :: 126 :: (pack16 payload.length ++ payload) := by
          simp [_ws_send_text, hs, hm]
        rw [he, _ws_recv_frame, recv_frame_ext16 payload (by omega) hm]
        rfl
      · have he : _ws_send_text payload
            = 0x81 :: 127 :: (pack64 payload.length ++ payload) := by
          simp [_ws_send_text, hs, hm]
        rw [he, _ws_recv_frame, recv_frame_ext64 payload (by omega) h]
        rfl
  · simp [_ws_send_text, hs]
  · simp [_ws_send_text, hm1, hm2, Nat.not_lt.mpr hm1]
  · have g1 : ¬ payload.length < 126 := by omega
    have g2 : ¬ payload.length < 65536 := by omega
    simp [_ws_send_text, g1, g2]

/-- C4 witness: the boundary payload lengths 125, 126, 65535 and 65536
take the 1-byte, 16-bit, 16-bit and 64-bit length paths respectively, and
a small payload round-trips unchanged. -/
theorem ws_frame_roundtrip_witness :
    ([104, 105] : List Nat).length ≤ 1024 * 1024 ∧
    _ws_recv_frame (_ws_send_text [104, 105]) = some (1, [104, 105]) ∧
    _ws_send_text (List.replicate 125 0)
      = 0x81 :: 125 :: List.replicate 125 0 ∧
    _ws_send_text (List.replicate 126 0)
      = 0x81 :: 126 :: (pack16 126 ++ List.replicate 126 0) ∧
    _ws_send_text (List.replicate 65535 0)
      = 0x81 :: 126 :: (pack16 65535 ++ List.replicate 65535 0) ∧
    _ws_send_text (List.replicate 65536 0)
      = 0x81 :: 127 :: (pack64 65536 ++ List.replicate 65536 0) := by
  have w1 := (ws_frame_roundtrip [104, 105] (by decide)).1
  have w2 := (ws_frame_roundtrip (List.replicate 125 0)
    (by rw [List.length_replicate] <;> omega)).2.1
    (by rw [List.length_replicate] <;> omega)
  have w3 := (ws_frame_roundtrip (List.replicate 126 0)
    (by rw [List.length_replicate] <;> omega)).2.2.1
    (by rw [List.length_replicate] <;> omega)
    (by rw [List.length_replicate] <;> omega)
  have w4 := (ws_frame_roundtrip (List.replicate 65535 0)
    (by rw [List.length_replicate] <;> omega)).2.2.1
    (by rw [List.length_replicate] <;> omega)
    (by rw [List.length_replicate] <;> omega)
  have w5 := (ws_frame_roundtrip (List.replicate 65536 0)
    (by rw [List.length_replicate] <;> omega)).2.2.2
    (by rw [List.length_replicate] <;> omega)
  rw [List.length_replicate] at w2 w3 w4 w5
  exact ⟨by decide, w1, w2, w3, w4, w5⟩

/-! ## C5: oversized declared frame length -/

/-- C5: a frame whose 64-bit extended length field declares more than
1 MiB (the only length encoding that can) makes the decoder return the
close/error signal `none` instead of a payload, and on any `none` from the
decoder the session loop exits at once: `conn` is deregistered and closed,
nothing is sent in response, the shared state and every other client are
untouched. -/
theorem oversized_frame_rejected :
    (∀ (b0 b1 : Nat) (ext rest : List Nat), ext.length = 8 →
      b1 &&& 0x7F = 127 → beVal ext > 1024 * 1024 →
      ws_recv_frame_rest (b0 :: b1 :: (ext ++ rest)) = none ∧
      _ws_recv_frame (b0 :: b1 :: (ext ++ rest)) = none) ∧
    (∀ (conn fuel : Nat) (ds : DashboardState) (input : List Nat),
      ws_recv_frame_rest input = none →
      ws_session_loop conn fuel ds input =
        ({ ds with
             ws_clients := ds.ws_clients.filter (fun c => c.id != conn) },
         [], [conn])) := by
  constructor
  · intro b0 b1 ext rest hlen hbase hval
    have hrest : ws_recv_frame_rest (b0 :: b1 :: (ext ++ rest)) = none := by
      have h126 : ¬(b1 &&& 127 = 126) := by omega
      have htake : (ext ++ rest).take 8 = ext := List.take_left' hlen
      have hdrop : (ext ++ rest).drop 8 = rest := List.drop_left' hlen
      simp [ws_recv_frame_rest, hbase, h126, htake, hdrop, hval, hlen]
    exact ⟨hrest, by simp [_ws_recv_frame, hrest]⟩
  · intro conn fuel ds input h
    cases fuel with
    | zero => rfl
    | succ m =>
      simp only [ws_session_loop, h]
      rfl

/-- C5 witness: a concrete frame declaring 2,000,000 bytes is rejected and
ends a session with two registered clients, closing only the offender. -/
theorem oversized_frame_rejected_witness :
    (pack64 2000000).length = 8 ∧
    (127 : Nat) &&& 0x7F = 127 ∧
    beVal (pack64 2000000) > 1024 * 1024 ∧
    ws_recv_frame_rest (0x81 :: 127 :: (pack64 2000000 ++ [])) = none ∧
    _ws_recv_frame (0x81 :: 127 :: (pack64 2000000 ++ [])) = none ∧
    ws_session_loop 5 3
        { state := initSharedState,
          ws_clients := [⟨5, true⟩, ⟨9, true⟩],
          last_broadcast_json := none }
        (0x81 :: 127 :: (pack64 2000000 ++ [])) =
      ({ state := initSharedState,
         ws_clients := [⟨9, true⟩],
         last_broadcast_json := none },
       [], [5]) := by
  have h1 := (oversized_frame_rejected.1 0x81 127 (pack64 2000000) []
    (by decide) (by decide) (by decide))
  have h2 := oversized_frame_rejected.2 5 3
    { state := initSharedState,
      ws_clients := [⟨5, true⟩, ⟨9, true⟩],
      last_broadcast_json := none }
    (0x81 :: 127 :: (pack64 2000000 ++ [])) h1.1
  exact ⟨by decide, by decide, by decide, h1.1, h1.2, by rw [h2]; rfl⟩

/-! ## C8: malformed command payloads -/

/-- C8 counterexample: the claim says every inbound text frame whose
non-empty payload is not a well-formed JSON command object is ignored and
the connection stays open for subsequent frames. The payload "5" (valid
JSON, not an object) refutes it: `msg.get` raises an uncaught
`AttributeError`, the session loop exits before the following frame (a
valid run command, which would have set the flag), and the connection is
deregistered and closed. -/
theorem malformed_command_counterexample :
    (ws_dispatch_text (cps "5") initDashboardState).2.2.2 = StepKind.crash ∧
    ws_session_loop 7 10
        { state := initSharedState, ws_clients := [⟨7, true⟩],
          last_broadcast_json := none }
        ([0x81, 1, 53] ++
          _ws_send_text (strBytes "\x7b\"action\": \"run\"\x7d")) =
      ({ state := initSharedState, ws_clients := [],
         last_broadcast_json := none }, [], [7]) :=
  ⟨by decide, by decide⟩

/-- C8 (amended): a non-empty text payload that fails UTF-8 decoding or
JSON parsing, or parses to an object without a recognized action, is
ignored: nothing is mutated, nothing is sent back, and the loop carries on
with the remaining frames. A payload that parses to a JSON value that is
not an object, however, raises an uncaught `AttributeError` at
`msg.get`: still nothing is sent back, but the session loop exits and the
connection is deregistered and closed. -/
theorem malformed_command_handling :
    (∀ payload ds, utf8Decode payload = none →
      ws_dispatch_text payload ds = (ds, [], [], StepKind.ok)) ∧
    (∀ payload c ds, utf8Decode payload = some c → json_loads c = none →
      ws_dispatch_text payload ds = (ds, [], [], StepKind.ok)) ∧
    (∀ payload c kvs ds, utf8Decode payload = some c →
      json_loads c = some (PyJson.obj kvs) →
      actionIs (objGet kvs (cps "action")) "run" = false →
      actionIs (objGet kvs (cps "action")) "relocate" = false →
      actionIs (objGet kvs (cps "action")) "end" = false →
      actionIs (objGet kvs (cps "action")) "upload" = false →
      ws_dispatch_text payload ds = (ds, [], [], StepKind.ok)) ∧
    (∀ conn fuel ds input payload rest,
      ws_recv_frame_rest input = some ((1, payload), rest) → payload ≠ [] →
      ws_dispatch_text payload ds = (ds, [], [], StepKind.ok) →
      ws_session_loop conn (fuel + 1) ds input
        = ws_session_loop conn fuel ds rest) ∧
    (∀ payload c v ds, utf8Decode payload = some c → json_loads c = some v →
      (∀ kvs, v ≠ PyJson.obj kvs) →
      ws_dispatch_text payload ds = (ds, [], [], StepKind.crash)) ∧
    (∀ conn fuel ds input payload rest,
      ws_recv_frame_rest input = some ((1, payload), rest) → payload ≠ [] →
      ws_dispatch_text payload ds = (ds, [], [], StepKind.crash) →
      ws_session_loop conn (fuel + 1) ds input =
        ({ ds with
             ws_clients := ds.ws_clients.filter (fun c => c.id != conn) },
         [], [conn])) := by
  refine ⟨fun payload ds h => ?_, fun payload c ds h1 h2 => ?_,
    fun payload c kvs ds h1 h2 hr hl he hu => ?_,
    fun conn fuel ds input payload rest hframe hne hdisp => ?_,
    fun payload c v ds h1 h2 hno => ?_,
    fun conn fuel ds input payload rest hframe hne hdisp => ?_⟩
  · simp [ws_dispatch_text, h]
  · simp [ws_dispatch_text, h1, h2]
  · simp [ws_dispatch_text, h1, h2, handle_command, hr, hl, he, hu]
  · simp [ws_session_loop, hframe, hne, hdisp]
  · simp only [ws_dispatch_text, h1, h2]
    cases v with
    | obj kvs => exact absurd rfl (hno kvs)
    | null => rfl
    | bool b => rfl
    | num raw => rfl
    | str s => rfl
    | arr xs => rfl
  · simp [ws_session_loop, hframe, hne, hdisp, ws_session_exit]

/-- C8 witness: the amended statement exercised at concrete payloads: an
invalid UTF-8 byte, a bare "]" and a trailing-comma array "[1,]" (a
`JSONDecodeError` in CPython) are swallowed with the connection open and
the next frame processed; an object with an unknown action is a no-op; a
bare "5" crashes the session and closes the connection. -/
theorem malformed_command_handling_witness :
    utf8Decode [0xFF] = none ∧
    json_loads (cps "[1,]") = none ∧
    ws_dispatch_text (cps "[1,]") initDashboardState
      = (initDashboardState, [], [], StepKind.ok) ∧
    ws_dispatch_text [0xFF] initDashboardState
      = (initDashboardState, [], [], StepKind.ok) ∧
    utf8Decode (cps "]") = some (cps "]") ∧
    json_loads (cps "]") = none ∧
    ws_dispatch_text (cps "]") initDashboardState
      = (initDashboardState, [], [], StepKind.ok) ∧
    ws_dispatch_text (strBytes "\x7b\"action\": \"fly\"\x7d")
        initDashboardState
      = (initDashboardState, [], [], StepKind.ok) ∧
    ws_session_loop 3 2 initDashboardState ([0x81, 1, 0xFF] ++ [0x88, 0])
      = ws_session_loop 3 1 initDashboardState [0x88, 0] ∧
    ws_dispatch_text (cps "5") initDashboardState
      = (initDashboardState, [], [], StepKind.crash) ∧
    ws_session_loop 3 2
        { state := initSharedState, ws_clients := [⟨3, true⟩],
          last_broadcast_json := none }
        ([0x81, 1, 53] ++ [0x88, 0])
      = ({ state := initSharedState, ws_clients := [],
           last_broadcast_json := none }, [], [3]) := by
  have p1 := malformed_command_handling.1 [0xFF] initDashboardState (by decide)
  have p0 := malformed_command_handling.2.1 (cps "[1,]") (cps "[1,]")
    initDashboardState (by decide) (by rfl)
  have p2 := malformed_command_handling.2.1 (cps "]") (cps "]")
    initDashboardState (by decide) (by rfl)
  have p3 := malformed_command_handling.2.2.1
    (strBytes "\x7b\"action\": \"fly\"\x7d") (cps "\x7b\"action\": \"fly\"\x7d")
    [(cps "action", PyJson.str (cps "fly"))] initDashboardState
    (by decide) (by rfl) (by decide) (by decide) (by decide) (by decide)
  have p4 := malformed_command_handling.2.2.2.1 3 1 initDashboardState
    ([0x81, 1, 0xFF] ++ [0x88, 0]) [0xFF] [0x88, 0] (by decide) (by decide) p1
  have p5 := malformed_command_handling.2.2.2.2.1 (cps "5") (cps "5")
    (PyJson.num (cps "5")) initDashboardState (by decide) (by rfl)
    (fun kvs h => PyJson.noConfusion h)
  have p6 := malformed_command_handling.2.2.2.2.2 3 1
    { state := initSharedState, ws_clients := [⟨3, true⟩],
      last_broadcast_json := none }
    ([0x81, 1, 53] ++ [0x88, 0]) [53] [0x88, 0] (by decide) (by decide)
    (by decide)
  exact ⟨by decide, by rfl, p0, p1, by decide, by rfl, p2, p3, p4, by decide,
    by rw [p6]; rfl⟩

/-! ## C9: plain HTTP handling -/

/-- C9: on a parsed request that is not a WebSocket upgrade: a GET for
"/" or "/index.html" answers 200 with content type
"text/html; charset=utf-8" and a Content-Length of exactly the body
length, or 500 when reading the dashboard document fails; a GET for any
other path answers 404; any non-GET method answers 404; every response's
header block carries "Connection: close"; and the connection is closed
afterwards (the `true` component of the outcome). -/
theorem http_request_handling (html_read : Option (List Nat))
    (method path : String) (headers : List (String × String))
    (hws : is_ws_upgrade method path headers = false) :
    (method = "GET" → (path = "/" ∨ path = "/index.html") →
      (∀ body, html_read = some body →
        _handle_connection html_read method path headers =
          ConnOutcome.http
            (strBytes (http_headers_string 200 "text/html; charset=utf-8"
                body.length) ++ body) true) ∧
      (html_read = none →
        _handle_connection html_read method path headers =
          ConnOutcome.http
            (_http_response 500 (strBytes "Internal Server Error")
              "text/plain") true)) ∧
    (method = "GET" → ¬(path = "/" ∨ path = "/index.html") →
      _handle_connection html_read method path headers =
        ConnOutcome.http
          (_http_response 404 (strBytes "Not found") "text/plain") true) ∧
    (method ≠ "GET" →
      _handle_connection html_read method path headers =
        ConnOutcome.http
          (_http_response 404 (strBytes "Not found") "text/plain") true) ∧
    (∀ status ctype clen,
      ("Connection: close").data <:+: (http_headers_string status ctype clen).data) := by
  refine ⟨fun hm hp => ⟨fun body hb => ?_, fun hb => ?_⟩,
    fun hm hp => ?_, fun hm => ?_, fun status ctype clen => ?_⟩
  · subst hm hb
    simp [_handle_connection, hws, _handle_http_get, hp, _http_response]
  · subst hm hb
    simp [_handle_connection, hws, _handle_http_get, hp]
  · subst hm
    simp [_handle_connection, hws, _handle_http_get, hp]
  · have hg : (method == "GET") = false := by
      simpa using hm
    simp [_handle_connection, hws, hg]
  · refine ⟨("HTTP/1.1 " ++ http_status_line status ++ "\r\n"
      ++ "Content-Type: " ++ ctype ++ "\r\n"
      ++ "Content-Length: " ++ toString clen ++ "\r\n").data,
      ("\r\n" ++ "\r\n").data, ?_⟩
    simp [http_headers_string, List.append_assoc]

/-- C9 witness: a GET for "/" with a one-byte document, a GET for an
unknown path, and a POST, each with the socket closed afterwards, plus the
Connection-close header at a concrete status line. -/
theorem http_request_handling_witness :
    is_ws_upgrade "GET" "/" [] = false ∧
    _handle_connection (some [72]) "GET" "/" [] =
      ConnOutcome.http
        (strBytes (http_headers_string 200 "text/html; charset=utf-8" 1)
          ++ [72]) true ∧
    _handle_connection none "GET" "/" [] =
      ConnOutcome.http
        (_http_response 500 (strBytes "Internal Server Error") "text/plain")
        true ∧
    _handle_connection (some [72]) "GET" "/nope" [] =
      ConnOutcome.http
        (_http_response 404 (strBytes "Not found") "text/plain") true ∧
    _handle_connection (some [72]) "POST" "/" [] =
      ConnOutcome.http
        (_http_response 404 (strBytes "Not found") "text/plain") true ∧
    ("Connection: close").data <:+: (http_headers_string 200 "text/plain" 9).data := by
  have h1 := (http_request_handling (some [72]) "GET" "/" [] (by decide)).1
    rfl (Or.inl rfl)
  have h2 := (http_request_handling none "GET" "/" [] (by decide)).1
    rfl (Or.inl rfl)
  have h3 := (http_request_handling (some [72]) "GET" "/nope" [] (by decide)).2.1
    rfl (by simp)
  have h4 := (http_request_handling (some [72]) "POST" "/" [] (by decide)).2.2.1
    (by simp)
  have h5 := (http_request_handling (some [72]) "GET" "/" [] (by decide)).2.2.2
    200 "text/plain" 9
  exact ⟨by decide, h1.1 [72] rfl, h2.2 rfl, h3, h4, h5⟩

end Dashboard

